import Mathlib

/-!
# Verification of the WSPR-TX configuration client's protocol core

Shallow embedding of the device-communication layer of
`src/WSPR_TX_Config.py`: frame decoding (`Model.readPort`,
`Controller.handleMessage`), the command dispatcher and its handlers,
the resync routine (`Controller.updateStatus`), the mirror clock (`MC`)
and the signal-generator frequency register (`Controller.addFQ` /
`Controller.subFQ`).  Python integers are modelled as `Int` (they are
unbounded), strings as `String`, raised exceptions as `Except`.
-/

namespace WSPR

/-! ## Python string primitives used by the source -/

/-- Python slice `s[a:b]` (never raises, clips at the ends). -/
def strSlice (s : String) (a b : Nat) : String :=
  (((s.data).drop a).take (b - a)).asString

/-- Python slice `s[a:]`. -/
def strDrop (s : String) (a : Nat) : String :=
  ((s.data).drop a).asString

/-- Python index `s[i]` where the caller has ensured `i < len(s)`;
`d` is returned on an out-of-range index (the embedding makes the
in-range obligation explicit at each use site). -/
def strGetD (s : String) (i : Nat) (d : Char) : Char :=
  (s.data).getD i d

/-- The characters Python's `str.rstrip()` / `int()` treat as whitespace. -/
def pyWhitespace : List Char := [' ', '\t', '\n', '\r', '\x0b', '\x0c']

/-- Python `s.rstrip()`: remove trailing whitespace. -/
def rstrip (s : String) : String :=
  (((s.data).reverse.dropWhile (fun c => c ∈ pyWhitespace)).reverse).asString

/-- Python `s.isdigit()` restricted to ASCII input: nonempty and all
decimal digits. -/
def pyIsdigit (s : String) : Bool :=
  decide (s.data ≠ []) && s.data.all Char.isDigit

/-- Numeric value of a nonempty ASCII digit string. -/
def digitsVal (ds : List Char) : Int :=
  ((ds.foldl (fun a c => a * 10 + (c.toNat - 48)) 0 : Nat) : Int)

/-- Python `int(s)` for decimal strings: surrounding whitespace ignored,
one optional sign, then a nonempty run of digits; `none` models the
`ValueError` raised on anything else.  (Underscore digit grouping is not
modelled; no input in this development uses it.) -/
def pyIntOpt (s : String) : Option Int :=
  let t := ((s.data.dropWhile (fun c => c ∈ pyWhitespace)).reverse.dropWhile
              (fun c => c ∈ pyWhitespace)).reverse
  match t with
  | '-' :: ds => if ds ≠ [] ∧ ds.all Char.isDigit then some (-(digitsVal ds)) else none
  | '+' :: ds => if ds ≠ [] ∧ ds.all Char.isDigit then some (digitsVal ds) else none
  | ds => if ds ≠ [] ∧ ds.all Char.isDigit then some (digitsVal ds) else none

/-- Helper for `pySplit`: walk the characters, cutting at each
separator; `cur` holds the current field reversed. -/
def splitOnCharAux (sep : Char) : List Char → List Char → List (List Char)
  | [], cur => [cur.reverse]
  | c :: rest, cur =>
      if c = sep then cur.reverse :: splitOnCharAux sep rest []
      else splitOnCharAux sep rest (c :: cur)

/-- Python `s.split(sep)` for a single-character separator: split at
every occurrence, preserving empty fields (`''.split(':') == ['']`). -/
def pySplit (s : String) (sep : Char) : List String :=
  (splitOnCharAux sep s.data []).map List.asString

/-! ## FrequencyRegister: `Controller.addFQ` / `Controller.subFQ`
(lines 1709–1722)

Only the stored-value arithmetic is embedded here; both methods also
send a `DGF` set command and refresh the display with the same digits,
which does not affect the register value. -/

/-- `Controller.addFQ` (lines 1709–1713): `t = self.fq + add;
if t > 100000000000: t -= 100000000000; self.fq = t`. -/
def addFQ (fq add : Int) : Int :=
  let t := fq + add
  if t > 100000000000 then t - 100000000000 else t

/-- `Controller.subFQ` (lines 1716–1720): `t = self.fq - sub;
if t < 0: t = 1; self.fq = t`. -/
def subFQ (fq sub : Int) : Int :=
  let t := fq - sub
  if t < 0 then 1 else t

/-- The per-digit step amounts wired to the up/down buttons
(`up100M` … `up1c`, `down100M` … `down1c`, lines 1723–1766). -/
def digitAmounts : List Int :=
  [10000000000, 1000000000, 100000000, 10000000, 1000000,
   100000, 10000, 1000, 100, 10, 1]

/-! ## MirrorClock: class `MC` (lines 273–316)

State: the stored `_hour`/`_minute`/`_second` (Python ints) and the
pending Tk timer handle `_job` (`None` or an opaque id, modelled as
`Option Nat`).  `root.after` returns a fresh id, passed in explicitly. -/

structure MCState where
  hour : Int
  minute : Int
  second : Int
  job : Option Nat
  deriving DecidableEq, Repr

/-- Python `"{0:02d}".format(n)`: zero-pad to width 2. -/
def fmt02 (n : Int) : String :=
  if 0 ≤ n ∧ n < 10 then "0" ++ toString n else toString n

/-- The `hh:mm:ss` string built by `MC.time` / `MC.__tick` (lines 300, 305). -/
def timeFormat (h m s : Int) : String :=
  fmt02 h ++ ":" ++ fmt02 m ++ ":" ++ fmt02 s

/-- `MC.__tick` (lines 288–301): increment the second with nested carry
into minute and hour, push the formatted time to the clock sink, and
rearm the timer (`newJob` is the id `root.after` returns).  The second
component is the string pushed to the sink. -/
def MCtick (st : MCState) (newJob : Nat) : MCState × String :=
  let s := st.second + 1
  if s > 59 then
    let m := st.minute + 1
    if m > 59 then
      let h := st.hour + 1
      if h > 23 then
        (⟨0, 0, 0, some newJob⟩, timeFormat 0 0 0)
      else
        (⟨h, 0, 0, some newJob⟩, timeFormat h 0 0)
    else
      (⟨st.hour, m, 0, some newJob⟩, timeFormat st.hour m 0)
  else
    (⟨st.hour, st.minute, s, some newJob⟩, timeFormat st.hour st.minute s)

/-- Outcome of the `MC.time` setter (lines 307–316). -/
inductive SetTimeResult where
  /-- Parsed; fields stored and a new tick timer armed. -/
  | ok (st : MCState)
  /-- The `except ValueError: return -1` path (unpacking `split(':')`
  into three names failed). -/
  | errReturn (st : MCState)
  /-- An uncaught `ValueError` from `int()`: the conversions on line 315
  are outside the `try` block, so a non-integer field propagates. -/
  | raised (st : MCState)
  deriving DecidableEq, Repr

/-- `MC.time` setter (lines 307–316): cancel any pending timer first,
then split on `':'`; fewer or more than three fields ⇒ `return -1`;
otherwise convert each field with `int()` (raising on failure), store,
and arm a new timer with id `newJob`. -/
def timeSetter (st : MCState) (data : String) (newJob : Nat) : SetTimeResult :=
  let st1 : MCState := { st with job := none }
  match pySplit data ':' with
  | [h, m, s] =>
    match pyIntOpt h, pyIntOpt m, pyIntOpt s with
    | some hv, some mv, some sv => .ok ⟨hv, mv, sv, some newJob⟩
    | _, _, _ => .raised st1
  | _ => .errReturn st1

/-! ## Frame decoding: `Model.readPort` (lines 426–446) and the parse
step of `Controller.handleMessage` (lines 1812–1823) -/

/-- The framing decision of `Model.readPort` (lines 442–446) on the
line assembled from the serial stream (the characters accumulated up to
but excluding the first CR/LF): an empty line, or one whose first
character is not `'{'`, yields `''`; otherwise the line is returned
right-stripped. -/
def readPort (buff : String) : String :=
  if buff.length < 1 then ""
  else if strGetD buff 0 ' ' ≠ '{' then ""
  else rstrip buff

/-- A decoded inbound frame. -/
structure Frame where
  opcode : String
  payload : String
  deriving DecidableEq, Repr

/-- The payload extraction of `Controller.handleMessage`
(lines 1818–1822): `data = msg[6:]`, but `msg[5:]` when the character
at index 5 is not a space (the device sometimes omits it). -/
def msgPayload (msg : String) : String :=
  if msg.length > 5 then
    if strGetD msg 5 ' ' ≠ ' ' then strDrop msg 5 else strDrop msg 6
  else ""

/-- End-to-end decoding of one raw line: `Model.readPort` framing
followed by the parse step of `Controller.handleMessage`.  Lines the
framing rejects, and messages shorter than 5 characters (dropped with a
`Short message` diagnostic on line 1813–1815), yield no frame; otherwise
the opcode is `msg[1:4]` and the payload as in `msgPayload`. -/
def decodeFrame (line : String) : Option Frame :=
  let msg := readPort line
  if msg.length < 5 then none
  else some ⟨strSlice msg 1 4, msgPayload msg⟩

/-- `Model.sendPort` (lines 448–457): the byte string written to the
serial port.  Non-empty opcode: `"[op] data\r\n"`; empty opcode: the
data verbatim with no terminator appended (raw passthrough branch). -/
def sendPortEncode (cmd data : String) : String :=
  let b := if cmd.length > 0 then "[" ++ cmd ++ "] " ++ data else data
  if cmd.length > 0 then b ++ "\r\n" else b

/-! ## Controller: dispatcher state, handlers and the command table
(lines 1625–2015)

Handlers mutate controller-held data (`self.fq`, `self.sats`,
`self.powerlevel`, `self.filter`) and otherwise emit notifications to
sinks: `self.model.sendPort` (serial), `sys.stderr.write` (diagnostics)
and View update methods.  A raised Python exception is an
`Except.error`. -/

/-- Python exceptions that the embedded code paths can raise. -/
inductive PyError where
  | nameError (n : String)
  | indexError
  | valueError
  | attributeError (n : String)
  deriving DecidableEq, Repr

/-- Sink notifications emitted by a handler, in program order. -/
inductive Effect where
  /-- `self.model.sendPort(op, payload)`. -/
  | send (op payload : String)
  /-- `sys.stderr.write(m)`. -/
  | diag (m : String)
  /-- An unindexed View update, by method name and rendered argument. -/
  | view (method : String) (arg : String)
  /-- An indexed View update such as `setActive(i, color)` or
  `setProgress(i, n)`. -/
  | viewIdx (method : String) (idx : Int) (arg : String)
  /-- `self.view.satdata(self.sats)`. -/
  | satdata (sats : List String)
  deriving DecidableEq, Repr

/-- Controller-held session data touched by the handlers
(`Controller.__init__`, lines 1627–1632; `powerlevel` and `filter` are
first created on assignment and start at 0 here — no claim reads them
before a handler assigns them). -/
structure CtrlState where
  fq : Int
  sats : List String
  powerlevel : Int
  filter : Int
  deriving DecidableEq, Repr

/-- The initial controller state (`fq` starts at 100000000, line 1631). -/
def ctrl0 : CtrlState := ⟨100000000, [], 0, 0⟩

/-- `Model.bands` (lines 460–462). -/
def bands : List String :=
  ["2190m", "630m", "160m", "80m", "40m", "30m", "20m", "17m",
   "15m", "12m", "10m", "6m", "4m", "2m", "70cm", "23cm"]

/-- The type of an embedded payload handler. -/
abbrev Handler := CtrlState → String → Except PyError (CtrlState × List Effect)

/-- `Controller.handleCCM` (lines 1831–1846).  The empty-payload guard
calls the bare name `sendport`, which is defined nowhere in the module,
so Python raises `NameError` there. -/
def handleCCM : Handler := fun st data =>
  if data.length < 1 then .error (.nameError "sendport")
  else
    let c := strGetD data 0 ' '
    if c = 'N' then .ok (st, [.view "setStopped" "", .view "program" "0"])
    else if c = 'W' then .ok (st, [.view "setRunning" "", .view "program" "1"])
    else if c = 'S' then .ok (st, [.view "setGenerating" "", .view "program" "2"])
    else .ok (st, [.diag ("unknown CCM received: " ++ data), .send "CCM" "G"])

/-- `Controller.handleOTP` (lines 1847–1853). -/
def handleOTP : Handler := fun st data =>
  if pyIsdigit data then
    .ok (st, [.view "pauseTime.set" (toString (digitsVal data.data))])
  else
    .ok (st, [.diag ("unknown OTP received: " ++ data), .send "OTP" "G"])

/-- `Controller.handleOSM` (lines 1854–1859).  `data[0]` raises
`IndexError` on an empty payload. -/
def handleOSM : Handler := fun st data =>
  if data.length < 1 then .error .indexError
  else
    let c := strGetD data 0 ' '
    if c = 'N' ∨ c = 'W' ∨ c = 'S' then .ok (st, [.view "boot.set" (String.mk [c])])
    else .ok (st, [.diag ("unknown OSM received: " ++ data), .send "OSM" "G"])

/-- `Controller.handleOBD` (lines 1860–1870): `int(data[0:2])` raises
`ValueError` on a non-integer prefix; `data[3]` raises `IndexError`
when the payload is shorter than 4; `self.view.enable[self.filter]`
raises `IndexError` when the parsed band index is outside the 16-entry
band arrays (Python list indexing admits `-16 ≤ i < 16`). -/
def handleOBD : Handler := fun st data =>
  match pyIntOpt (strSlice data 0 2) with
  | none => .error .valueError
  | some n =>
    let st := { st with filter := n }
    if data.length < 4 then .error .indexError
    else
      let c := strGetD data 3 ' '
      if c = 'E' ∨ c = 'D' then
        if n < -(bands.length : Int) ∨ (bands.length : Int) ≤ n then .error .indexError
        else if c = 'E' then
          .ok (st, [.viewIdx "enable.set" n "1",
                    .viewIdx "progress.style" n "WSPR.Horizontal.TProgressbar"])
        else
          .ok (st, [.viewIdx "enable.set" n "0",
                    .viewIdx "progress.style" n "blank.Horizontal.TProgressbar"])
      else .ok (st, [.diag ("unknown OBD response:" ++ data)])

/-- `Controller.handleOLC` (lines 1871–1878). -/
def handleOLC : Handler := fun st data =>
  if data.length < 1 then .error .indexError
  else
    let c := strGetD data 0 ' '
    if c = 'G' then .ok (st, [.view "rpam.set" "G"])
    else if c = 'M' then .ok (st, [.view "rpam.set" "M"])
    else .ok (st, [.diag ("unknown OLC response:" ++ data), .send "OLC" "G"])

/-- `Controller.handleOPW` (lines 1879–1886). -/
def handleOPW : Handler := fun st data =>
  if data.length < 1 then .error .indexError
  else
    let c := strGetD data 0 ' '
    if c = 'N' then .ok (st, [.view "rpmode.set" "N"])
    else if c = 'A' then .ok (st, [.view "rpmode.set" "A"])
    else .ok (st, [.diag ("unknown OPW response:" ++ data), .send "OPW" "G"])

/-- `Controller.handleDCS` (lines 1887–1888). -/
def handleDCS : Handler := fun st data => .ok (st, [.view "call.set" data])

/-- `Controller.handleDL4` (lines 1889–1890). -/
def handleDL4 : Handler := fun st data => .ok (st, [.view "location.set" data])

/-- `Controller.handleDPD` (lines 1891–1897): digit payload is parsed,
clamped at 60 and stored in `self.powerlevel`; otherwise a corrective
query (with no diagnostic). -/
def handleDPD : Handler := fun st data =>
  if pyIsdigit data then
    let p := digitsVal data.data
    let p := if p > 60 then 60 else p
    .ok ({ st with powerlevel := p }, [.view "rpwr.set" (toString p)])
  else .ok (st, [.send "DPD" "G"])

/-- `Controller.handleDNM` (lines 1898–1899). -/
def handleDNM : Handler := fun st data => .ok (st, [.view "name.set" data])

/-- `Controller.handleDGF` (lines 1900–1907): exactly 12 digits are
stored into `self.fq` and echoed to the display; anything else draws a
diagnostic and a corrective query. -/
def handleDGF : Handler := fun st data =>
  if data.length = 12 ∧ pyIsdigit data then
    .ok ({ st with fq := digitsVal data.data }, [.view "setFQ" data])
  else
    .ok (st, [.diag ("Bad DGF data: " ++ data), .send "DGF" "G"])

/-- `Controller.handleFPN` (lines 1909–1910). -/
def handleFPN : Handler := fun st data => .ok (st, [.view "setDevice" data])

/-- `Controller.handleFHV` (lines 1911–1912). -/
def handleFHV : Handler := fun st data => .ok (st, [.view "setHardwareVer" data])

/-- `Controller.handleFHR` (lines 1913–1914). -/
def handleFHR : Handler := fun st data => .ok (st, [.view "setHardwareRev" data])

/-- `Controller.handleFSV` (lines 1915–1916). -/
def handleFSV : Handler := fun st data => .ok (st, [.view "setFirmwareVer" data])

/-- `Controller.handleFSR` (lines 1917–1918). -/
def handleFSR : Handler := fun st data => .ok (st, [.view "setFirmwareRev" data])

/-- `Controller.handleFRF` (lines 1919–1920): `pass`. -/
def handleFRF : Handler := fun st _ => .ok (st, [])

/-- `Controller.handleFLP` (lines 1921–1930): the diagnostic for a
non-digit suffix concatenates the bare name `band`, which is undefined
in the module, so that branch raises `NameError` before writing. -/
def handleFLP : Handler := fun st data =>
  let v := strDrop data 2
  if ¬ pyIsdigit v then .error (.nameError "band")
  else
    let n := digitsVal v.data
    let st := { st with filter := n }
    if n > (bands.length : Int) then
      .ok (st, [.diag ("Device reported an unsupported LPF with an ID of "
                        ++ toString n ++ ".")])
    else .ok (st, [.view "installLP" (toString n)])

/-- `Controller.handleGL4` (lines 1932–1933). -/
def handleGL4 : Handler := fun st data => .ok (st, [.view "setPosition" data])

/-- `Controller.handleGTM` (lines 1934–1939): pushes the time, then
flushes any accumulated satellite list to the plot. -/
def handleGTM : Handler := fun st data =>
  if st.sats ≠ [] then
    .ok ({ st with sats := [] },
         [.view "updateTime" data, .view "r3l5.fg" "black", .satdata st.sats])
  else
    .ok (st, [.view "updateTime" data, .view "r3l5.fg" "black"])

/-- `Controller.handleGLC` (lines 1940–1948). -/
def handleGLC : Handler := fun st data =>
  if data.length < 1 then .error .indexError
  else
    let c := strGetD data 0 ' '
    if c = 'F' then .ok (st, [.view "locked.text" "No Position Lock", .view "r3l6.fg" "grey80"])
    else if c = 'T' then .ok (st, [.view "locked.text" "Position Lock", .view "r3l6.fg" "black"])
    else .ok (st, [.diag ("unknown GLC response:" ++ data)])

/-- `Controller.handleGSI` (lines 1949–1950). -/
def handleGSI : Handler := fun st data => .ok ({ st with sats := st.sats ++ [data] }, [])

/-- `Controller.handleTFQ` (lines 1951–1955). -/
def handleTFQ : Handler := fun st data =>
  if pyIsdigit data then .ok (st, [.view "setFrequency" data])
  else .ok (st, [.diag ("unknown TFQ response: " ++ data)])

/-- `Controller.handleTON` (lines 1956–1963). -/
def handleTON : Handler := fun st data =>
  if data.length < 1 then .error .indexError
  else
    let c := strGetD data 0 ' '
    if c = 'T' then .ok (st, [.view "tx" "1"])
    else if c = 'F' then .ok (st, [.view "tx" "0"])
    else .ok (st, [.diag ("unknown TON response:" ++ data), .send "TON" "G"])

/-- `Controller.handleMPS` (lines 1964–1969). -/
def handleMPS : Handler := fun st data =>
  if pyIsdigit data then
    .ok (st, [.viewIdx "setActive" (-1) "black",
              .viewIdx "setProgress" (-1) (toString (digitsVal data.data))])
  else
    .ok (st, [.viewIdx "setActive" (-1) "black",
              .diag ("unknown MPS response: " ++ data)])

/-- `Controller.handleMIN` (lines 1970–1973). -/
def handleMIN : Handler := fun st data =>
  .ok (st, [.view "logInsert" data, .view "serialOK" "True",
            .view "saveButton.bg" "grey80"])

/-- `Controller.handleLPI` (lines 1974–1975): `pass`. -/
def handleLPI : Handler := fun st _ => .ok (st, [])

/-- `Controller.handleMVC` (lines 1976–1977): `pass`. -/
def handleMVC : Handler := fun st _ => .ok (st, [])

/-- `Controller.handleTBN` (lines 1978–1982). -/
def handleTBN : Handler := fun st data =>
  if ¬ pyIsdigit data then .ok (st, [.diag ("invalid TBN band data:: " ++ data)])
  else .ok (st, [.viewIdx "setActive" (digitsVal data.data) "black"])

/-- `Controller.handleTWS` (lines 1983–1992). -/
def handleTWS : Handler := fun st data =>
  if ¬ pyIsdigit (strSlice data 0 2) then
    .ok (st, [.diag ("invalid TWS band data:: " ++ data)])
  else
    let n := digitsVal (strSlice data 0 2).data
    if pyIsdigit (strSlice data 3 6) then
      .ok (st, [.viewIdx "setActive" n "red",
                .viewIdx "setProgress" n (toString (digitsVal (strSlice data 3 6).data))])
    else
      .ok (st, [.viewIdx "setActive" n "red",
                .diag ("unknown MPS response: " ++ data)])

/-- `Controller.handleTCC` (lines 1993–1994). -/
def handleTCC : Handler := fun st _ => .ok (st, [.viewIdx "setProgress" (-1) "0"])

/-- The command table `self.handlers` (lines 1633–1652), in source
order. -/
def handlers : List (String × Handler) :=
  [("CCM", handleCCM), ("OTP", handleOTP), ("OSM", handleOSM),
   ("OBD", handleOBD), ("OLC", handleOLC), ("OPW", handleOPW),
   ("DCS", handleDCS), ("DL4", handleDL4), ("DPD", handleDPD),
   ("DNM", handleDNM), ("DGF", handleDGF), ("FPN", handleFPN),
   ("FHV", handleFHV), ("FHR", handleFHR), ("FSV", handleFSV),
   ("FSR", handleFSR), ("FRF", handleFRF), ("FLP", handleFLP),
   ("GL4", handleGL4), ("GTM", handleGTM), ("GLC", handleGLC),
   ("GSI", handleGSI), ("TFQ", handleTFQ), ("TON", handleTON),
   ("MPS", handleMPS), ("MIN", handleMIN), ("LPI", handleLPI),
   ("MVC", handleMVC), ("TBN", handleTBN), ("TWS", handleTWS),
   ("TCC", handleTCC)]

/-- Dictionary lookup `self.handlers[resp]` guarded by
`resp in self.handlers.keys()` (lines 1824–1829). -/
def lookupHandler (op : String) : Option Handler :=
  (handlers.find? (fun p => p.1 = op)).map (fun p => p.2)

/-- `Controller.handleMessage` (lines 1812–1829): drop messages shorter
than 5 characters with a diagnostic; mark the port alive when the frame
is well-formed (`msg[0] == '{' and msg[4] == '}'`); extract payload and
opcode; dispatch through the table, or emit the unknown-opcode
diagnostic and return. -/
def handleMessage (st : CtrlState) (msg : String) :
    Except PyError (CtrlState × List Effect) :=
  if msg.length < 5 then .ok (st, [.diag ("Short message: " ++ msg)])
  else
    let pre : List Effect :=
      if strGetD msg 0 ' ' = '{' ∧ strGetD msg 4 ' ' = '}' then
        [.view "serialOK" "True"]
      else []
    let data := msgPayload msg
    let resp := strSlice msg 1 4
    match lookupHandler resp with
    | none => .ok (st, pre ++ [.diag ("response: " ++ msg ++ " is unknown.  Need to upgrade?\n")])
    | some h =>
      match h st data with
      | .ok (st', effs) => .ok (st', pre ++ effs)
      | .error e => .error e

/-- Sequential dispatch of a list of inbound messages (the main loop of
`Controller.drive`, lines 2028–2036, restricted to its `handleMessage`
calls); stops at the first uncaught exception. -/
def runMsgs (st : CtrlState) (msgs : List String) : Except PyError CtrlState :=
  match msgs with
  | [] => .ok st
  | m :: rest =>
    match handleMessage st m with
    | .ok (st', _) => runMsgs st' rest
    | .error e => .error e

/-! ## Resync: `Controller.updateStatus` (lines 2000–2015) -/

/-- The fixed opcode list the resync routine iterates over (lines
2001–2003). -/
def resyncList : List String :=
  ["CCM", "OTP", "OSM", "OBD", "OLC", "OPW", "DCS", "DL4", "DPD",
   "DNM", "DGF", "FPN", "FHV", "FHR", "FSV", "FSR", "FRF", "FLP"]

/-- The inner wait loop of `Controller.updateStatus` (lines 2005–2015)
for one opcode `cmd`, after the `sendPort(cmd, 'G')` query.  `replies`
gives the successive `Model.readPort` results; `idx` counts reads
performed so far, `count` is `self.count`, `acc` accumulates the
messages passed to `handleMessage` in order.  Each unrolled iteration
models one pass of `while self.count < 100`: read; if the message is
longer than 2 characters, dispatch it, break on an opcode match
(`self.cmd == self.msg[1:4]`), otherwise increment `count`; messages of
2 or fewer characters are neither dispatched nor counted.  `fuel`
bounds the number of iterations unrolled; `none` means the loop was
still running after `fuel` iterations.  On exit the result carries the
dispatched messages, the number of reads performed, and whether an
opcode match ended the wait. -/
def resyncWait (cmd : String) (replies : Nat → String) :
    Nat → Nat → Nat → List String → Option (List String × Nat × Bool)
  | 0, _, _, _ => none
  | fuel + 1, idx, count, acc =>
    if count ≥ 100 then some (acc, idx, false)
    else
      if (replies idx).length > 2 then
        if strSlice (replies idx) 1 4 = cmd then
          some (acc ++ [replies idx], idx + 1, true)
        else resyncWait cmd replies fuel (idx + 1) (count + 1) (acc ++ [replies idx])
      else resyncWait cmd replies fuel (idx + 1) count acc

/-! ## The debug-pane raw send path: `Controller.sendPressed`
(lines 1800–1806) -/

/-- The methods class `Model` defines (lines 345–467). -/
def modelMethods : List String :=
  ["__init__", "getPorts", "portName", "readPort", "sendPort", "bands", "powers"]

/-- `Controller.sendPressed` (lines 1800–1806): read the entry field,
append CRLF when the checkbox is set, and call
`self.model.sendPortRaw('', d)`; Python resolves that attribute against
the `Model` instance, whose methods are `modelMethods`, and raises
`AttributeError` when it is absent. -/
def sendPressed (entered : String) (crlf : Bool) : Except PyError (List Effect) :=
  let d := if crlf then entered ++ "\r\n" else entered
  if "sendPortRaw" ∈ modelMethods then .ok [.send "" d]
  else .error (.attributeError "sendPortRaw")

/-! ## Theorems -/

/-- Any amount on the per-digit button list lies in `[1, 10^10]`. -/
theorem digitAmounts_bounds {a : Int} (ha : a ∈ digitAmounts) :
    1 ≤ a ∧ a ≤ 10000000000 := by
  simp only [digitAmounts, List.mem_cons, List.not_mem_nil, or_false] at ha
  omega

/-- C1 (counterexample): from the in-range value 100, decreasing by the
per-digit amount 100 stores 0 — `subFQ` clamps only a negative result,
so a difference of exactly 0 is kept, violating “never 0 … clamps at 1
rather than reaching or passing 0”. -/
theorem c1_subFQ_reaches_zero :
    (1 : Int) ≤ 100 ∧ (100 : Int) ≤ 100000000000 ∧
    (100 : Int) ∈ digitAmounts ∧ subFQ 100 100 = 0 ∧ subFQ 100 100 ≠ 1 := by
  decide

/-- C1 (amended): for a current value in `[1, 10^11]` and a per-digit
amount, `addFQ` stores a value again in `[1, 10^11]`, while `subFQ`
stores a value in `[0, 10^11]`: the result is 0 exactly when the amount
equals the current value, and the clamp to 1 fires only when the
difference is negative. -/
theorem c1_amended_range (fq a : Int) (h1 : 1 ≤ fq) (h2 : fq ≤ 100000000000)
    (ha : a ∈ digitAmounts) :
    (1 ≤ addFQ fq a ∧ addFQ fq a ≤ 100000000000) ∧
    (0 ≤ subFQ fq a ∧ subFQ fq a ≤ 100000000000) ∧
    (subFQ fq a = 0 ↔ fq = a) := by
  have hb := digitAmounts_bounds ha
  simp only [addFQ, subFQ]
  split_ifs <;> omega

/-- C1 (witness for the amended theorem) at value 100, amount 10. -/
theorem c1_amended_range_witness :
    (1 ≤ addFQ 100 10 ∧ addFQ 100 10 ≤ 100000000000) ∧
    (0 ≤ subFQ 100 10 ∧ subFQ 100 10 ≤ 100000000000) ∧
    (subFQ 100 10 = 0 ↔ (100 : Int) = 10) :=
  c1_amended_range 100 10 (by decide) (by decide) (by decide)

/-- C3 (counterexample): with the clock at 05:06:07 and a tick timer
armed (job 3), `setTime("bad")` is rejected and the fields are
retained, but the setter has already cancelled the timer and does not
rearm it — the resulting state differs from the previous one and no
timer keeps ticking; moreover `setTime("1:b:3")`, also malformed,
raises an uncaught `ValueError` instead of being rejected. -/
theorem c3_setter_cancels_timer :
    timeSetter ⟨5, 6, 7, some 3⟩ "bad" 9 = .errReturn ⟨5, 6, 7, none⟩ ∧
    (⟨5, 6, 7, none⟩ : MCState) ≠ ⟨5, 6, 7, some 3⟩ ∧
    (⟨5, 6, 7, none⟩ : MCState).job = none ∧
    timeSetter ⟨5, 6, 7, some 3⟩ "1:b:3" 9 = .raised ⟨5, 6, 7, none⟩ := by
  decide

/-- C3 (amended): on a time string that does not split into exactly
three colon-separated fields, the setter returns the error value and
retains the stored hour/minute/second, but any previously armed tick
timer has been cancelled and is not rearmed, so the clock stops
ticking; on a string with exactly three fields of which the first is
not an integer, the conversion raises an uncaught `ValueError`, again
with the fields retained and the timer cancelled. -/
theorem c3_amended_reject (st : MCState) (d : String) (j : Nat) :
    ((pySplit d ':').length ≠ 3 →
      timeSetter st d j = .errReturn ⟨st.hour, st.minute, st.second, none⟩) ∧
    (∀ a b c, pySplit d ':' = [a, b, c] → pyIntOpt a = none →
      timeSetter st d j = .raised ⟨st.hour, st.minute, st.second, none⟩) := by
  constructor
  · intro h
    unfold timeSetter
    rcases hs : pySplit d ':' with _ | ⟨a, _ | ⟨b, _ | ⟨c, _ | ⟨e, rest⟩⟩⟩⟩
    · rfl
    · rfl
    · rfl
    · rw [hs] at h; simp at h
    · rfl
  · intro a b c hs ha
    unfold timeSetter
    rw [hs]
    rcases hb : pyIntOpt b with _ | vb <;> rcases hc : pyIntOpt c with _ | vc <;>
      simp [ha, hb, hc]

/-- C3 (witness for the amended theorem): the clock at 05:06:07 with
job 3 armed, fed `"bad"`. -/
theorem c3_amended_reject_witness :
    timeSetter ⟨5, 6, 7, some 3⟩ "bad" 9 =
      .errReturn ⟨(5 : Int), (6 : Int), (7 : Int), none⟩ :=
  (c3_amended_reject ⟨5, 6, 7, some 3⟩ "bad" 9).1 (by decide)

/-- C6: one tick of the mirror clock keeps hour/minute/second in range
and propagates the carry: a second below 59 just increments, second 59
carries into the minute, minute 59 carries into the hour, and hour 23
wraps to 0; `setTime("23:59:59")` stores 23:59:59, and the tick from
that state publishes `"00:00:00"`. -/
theorem c6_tick_carry (st : MCState) (j : Nat)
    (h1 : 0 ≤ st.hour) (h2 : st.hour ≤ 23)
    (h3 : 0 ≤ st.minute) (h4 : st.minute ≤ 59)
    (h5 : 0 ≤ st.second) (h6 : st.second ≤ 59) :
    (0 ≤ (MCtick st j).1.hour ∧ (MCtick st j).1.hour ≤ 23 ∧
     0 ≤ (MCtick st j).1.minute ∧ (MCtick st j).1.minute ≤ 59 ∧
     0 ≤ (MCtick st j).1.second ∧ (MCtick st j).1.second ≤ 59) ∧
    (st.second < 59 → (MCtick st j).1 = ⟨st.hour, st.minute, st.second + 1, some j⟩) ∧
    (st.second = 59 → st.minute < 59 →
      (MCtick st j).1 = ⟨st.hour, st.minute + 1, 0, some j⟩) ∧
    (st.second = 59 → st.minute = 59 → st.hour < 23 →
      (MCtick st j).1 = ⟨st.hour + 1, 0, 0, some j⟩) ∧
    (st.second = 59 → st.minute = 59 → st.hour = 23 →
      (MCtick st j).1 = ⟨0, 0, 0, some j⟩) ∧
    (∀ s0 j0, timeSetter s0 "23:59:59" j0 = .ok ⟨23, 59, 59, some j0⟩) ∧
    (∀ j1, (MCtick ⟨23, 59, 59, some j1⟩ j).2 = "00:00:00") := by
  refine ⟨?_, ?_, ?_, ?_, ?_, fun s0 j0 => rfl, fun j1 => rfl⟩
  · simp only [MCtick]
    split_ifs <;> simp <;> omega
  · intro h
    simp only [MCtick]
    rw [if_neg (by omega)]
  · intro h h'
    simp only [MCtick]
    rw [if_pos (by omega), if_neg (by omega)]
  · intro h h' h''
    simp only [MCtick]
    rw [if_pos (by omega), if_pos (by omega), if_neg (by omega)]
  · intro h h' h''
    simp only [MCtick]
    rw [if_pos (by omega), if_pos (by omega), if_pos (by omega)]

/-- C6 (witness): ticking 03:30:59 carries into the minute, yielding
03:31:00. -/
theorem c6_tick_carry_witness :
    (MCtick ⟨3, 30, 59, none⟩ 4).1 = ⟨3, 31, 0, some 4⟩ :=
  (c6_tick_carry ⟨3, 30, 59, none⟩ 4 (by decide) (by decide) (by decide)
      (by decide) (by decide) (by decide)).2.2.1 rfl (by decide)

/-- Unfolding `List.asString`. -/
theorem data_asString (l : List Char) : l.asString.data = l := rfl

/-- Unfolding `List.asString`. -/
theorem asString_data (s : String) : s.data.asString = s := rfl

/-- A `dropWhile` fixpoint stays a fixpoint after appending. -/
theorem dropWhile_append_of_fix {p : Char → Bool} {l l' : List Char}
    (h : l.dropWhile p = l) (hne : l ≠ []) :
    (l ++ l').dropWhile p = l ++ l' := by
  cases l with
  | nil => exact absurd rfl hne
  | cons a t =>
    have ha : ¬ p a = true := by
      have h0 := List.dropWhile_eq_self_iff.1 h
      simpa using h0 (by simp)
    simp [List.dropWhile_cons, ha]

/-- `rstrip` is the identity when the reversed text is a `dropWhile`
fixpoint. -/
theorem rstrip_fix_of_reverse_fix {s : String}
    (h : s.data.reverse.dropWhile (fun c => c ∈ pyWhitespace) = s.data.reverse) :
    rstrip s = s := by
  unfold rstrip
  rw [h, List.reverse_reverse]
  rfl

/-- Conversely, `rstrip s = s` makes the reversed text a `dropWhile`
fixpoint. -/
theorem reverse_fix_of_rstrip_fix {s : String} (h : rstrip s = s) :
    s.data.reverse.dropWhile (fun c => c ∈ pyWhitespace) = s.data.reverse := by
  have hd := congrArg String.data h
  unfold rstrip at hd
  rw [data_asString] at hd
  have h2 := congrArg List.reverse hd
  rwa [List.reverse_reverse] at h2

/-- `readPort` passes a right-stripped line that opens with `'{'`
through unchanged. -/
theorem readPort_eq_self {line : String} {t : List Char}
    (hL : line.data = '{' :: t) (hfix : rstrip line = line) :
    readPort line = line := by
  unfold readPort
  rw [if_neg, if_neg]
  · exact hfix
  · unfold strGetD
    rw [hL]
    simp
  · show ¬ line.data.length < 1
    rw [hL]
    simp

/-- C5: frame decoding.  For a well-formed line `{XXX}` with a 3-letter
opcode and no payload section, decoding yields opcode `XXX` and an
empty payload; for `{XXX} rest` (space-separated payload section,
`rest` nonempty with no trailing whitespace), decoding yields opcode
`XXX` and payload `rest`, the text after the first space following the
opcode; and every line that does not begin with `'{'` decodes to no
frame. -/
theorem c5_decode (op r : String) (hop : op.length = 3)
    (hr1 : rstrip r = r) (hr2 : r ≠ "") :
    decodeFrame ("\x7b" ++ op ++ "\x7d") = some ⟨op, ""⟩ ∧
    decodeFrame ("\x7b" ++ op ++ "\x7d " ++ r) = some ⟨op, r⟩ ∧
    (∀ line : String, line.data.head? ≠ some '{' → decodeFrame line = none) := by
  have hop' : op.data.length = 3 := hop
  obtain ⟨x, y, z, hxyz⟩ := List.length_eq_three.1 hop'
  have hrd : r.data ≠ [] := by
    intro h
    exact hr2 (by rw [← asString_data r, h]; rfl)
  refine ⟨?_, ?_, ?_⟩
  · -- {XXX} with no payload section
    have hLa : ("\x7b" ++ op ++ "\x7d").data = '{' :: [x, y, z, '}'] := by
      show ("\x7b".data ++ op.data) ++ "\x7d".data = _
      rw [hxyz]
      rfl
    have hfix : rstrip ("\x7b" ++ op ++ "\x7d") = "\x7b" ++ op ++ "\x7d" := by
      apply rstrip_fix_of_reverse_fix
      rw [hLa]
      simp [List.dropWhile_cons, pyWhitespace]
    have hlen : ¬ ("\x7b" ++ op ++ "\x7d").length < 5 := by
      show ¬ ("\x7b" ++ op ++ "\x7d").data.length < 5
      rw [hLa]
      simp
    have hlen6 : ¬ ("\x7b" ++ op ++ "\x7d").length > 5 := by
      show ¬ ("\x7b" ++ op ++ "\x7d").data.length > 5
      rw [hLa]
      simp
    unfold decodeFrame
    rw [readPort_eq_self hLa hfix]
    rw [if_neg hlen]
    have hsl : strSlice ("\x7b" ++ op ++ "\x7d") 1 4 = op := by
      unfold strSlice
      rw [hLa]
      show ([x, y, z] : List Char).asString = op
      rw [← hxyz]
      rfl
    have hpl : msgPayload ("\x7b" ++ op ++ "\x7d") = "" := by
      unfold msgPayload
      rw [if_neg hlen6]
    rw [hsl, hpl]
  · -- {XXX} rest
    have hLb : ("\x7b" ++ op ++ "\x7d " ++ r).data = '{' :: ([x, y, z, '}', ' '] ++ r.data) := by
      show (("\x7b".data ++ op.data) ++ "\x7d ".data) ++ r.data = _
      rw [hxyz]
      rfl
    have hfix : rstrip ("\x7b" ++ op ++ "\x7d " ++ r) = "\x7b" ++ op ++ "\x7d " ++ r := by
      apply rstrip_fix_of_reverse_fix
      rw [hLb]
      have : ('{' :: ([x, y, z, '}', ' '] ++ r.data)).reverse
          = r.data.reverse ++ [' ', '}', z, y, x, '{'] := by simp
      rw [this]
      rw [dropWhile_append_of_fix (reverse_fix_of_rstrip_fix hr1) (by simpa using hrd)]
    have hlen : ¬ ("\x7b" ++ op ++ "\x7d " ++ r).length < 5 := by
      show ¬ ("\x7b" ++ op ++ "\x7d " ++ r).data.length < 5
      rw [hLb]
      simp
    have hlen6 : ("\x7b" ++ op ++ "\x7d " ++ r).length > 5 := by
      show ("\x7b" ++ op ++ "\x7d " ++ r).data.length > 5
      rw [hLb]
      simp
    unfold decodeFrame
    rw [readPort_eq_self hLb hfix]
    rw [if_neg hlen]
    have hsl : strSlice ("\x7b" ++ op ++ "\x7d " ++ r) 1 4 = op := by
      unfold strSlice
      rw [hLb]
      show ([x, y, z] : List Char).asString = op
      rw [← hxyz]
      rfl
    have hpl : msgPayload ("\x7b" ++ op ++ "\x7d " ++ r) = r := by
      unfold msgPayload
      rw [if_pos hlen6]
      rw [if_neg (by unfold strGetD; rw [hLb]; simp)]
      unfold strDrop
      rw [hLb]
      show r.data.asString = r
      rfl
    rw [hsl, hpl]
  · -- lines not beginning with '{'
    intro line hline
    have hrp : readPort line = "" := by
      unfold readPort
      cases hl : line.data with
      | nil =>
        rw [if_pos]
        show line.data.length < 1
        rw [hl]
        simp
      | cons c t =>
        have hA : ¬ line.length < 1 := by
          show ¬ line.data.length < 1
          rw [hl]
          simp
        have hB : strGetD line 0 ' ' ≠ '{' := by
          unfold strGetD
          rw [hl]
          simp only [List.getD_cons_zero]
          intro hc
          exact hline (by rw [hl, hc]; rfl)
        rw [if_neg hA, if_pos hB]
    unfold decodeFrame
    rw [hrp]
    rw [if_pos (by decide)]

/-- C5 (witness): the line `{DGF} 000010000000` decodes to opcode `DGF`
with payload `000010000000`, `{DGF}` decodes with an empty payload, and
the line `noise` yields no frame. -/
theorem c5_decode_witness :
    decodeFrame ("\x7b" ++ "DGF" ++ "\x7d") = some ⟨"DGF", ""⟩ ∧
    decodeFrame ("\x7b" ++ "DGF" ++ "\x7d " ++ "000010000000") = some ⟨"DGF", "000010000000"⟩ ∧
    (∀ line : String, line.data.head? ≠ some '{' → decodeFrame line = none) :=
  c5_decode "DGF" "000010000000" (by decide) (by decide) (by decide)

/-- C7 (counterexample): from the in-range value `10^11`, increase by
100 wraps to 100 and the decrease by 100 then yields 0 — a round-trip
result below 1 that is not clamped to 1, contrary to the claim's
“a result below 1 is clamped to 1”. -/
theorem c7_wrap_roundtrip_zero :
    (1 : Int) ≤ 100000000000 ∧ addFQ 100000000000 100 = 100 ∧
    subFQ (addFQ 100000000000 100) 100 = 0 ∧
    subFQ (addFQ 100000000000 100) 100 < 1 ∧
    subFQ (addFQ 100000000000 100) 100 ≠ 1 := by
  decide

/-- C7 (amended): `increase(v)` then `decrease(v)` is the identity
whenever the increase does not wrap; when it wraps, the round trip
lands on 1 (the clamp fires on the negative difference) except from the
exact value `10^11`, where it lands on 0; and at the claim's example,
`99999999999 + 100` wraps to 99. -/
theorem c7_amended_roundtrip (fq v : Int) (h1 : 1 ≤ fq)
    (h2 : fq ≤ 100000000000) :
    (fq + v ≤ 100000000000 → subFQ (addFQ fq v) v = fq) ∧
    (100000000000 < fq + v →
      subFQ (addFQ fq v) v = if fq = 100000000000 then 0 else 1) ∧
    addFQ 99999999999 100 = 99 := by
  refine ⟨?_, ?_, by decide⟩ <;>
    · intro h
      simp only [addFQ, subFQ]
      split_ifs <;> omega

/-- C7 (witness for the amended theorem) at value 5, amount 7. -/
theorem c7_amended_roundtrip_witness : subFQ (addFQ 5 7) 7 = 5 :=
  (c7_amended_roundtrip 5 7 (by decide) (by decide)).1 (by decide)

/-- When every read comes back with at most 2 characters, no iteration
of the resync wait loop increments `self.count`, so the loop never
exits on its own: any amount of fuel is exhausted. -/
theorem resyncWait_short_reads_none (cmd : String) (replies : Nat → String)
    (h : ∀ i, ¬ (replies i).length > 2) :
    ∀ fuel idx count acc, count < 100 →
      resyncWait cmd replies fuel idx count acc = none := by
  intro fuel
  induction fuel with
  | zero => intro idx count acc hc; rfl
  | succ n ih =>
    intro idx count acc hc
    unfold resyncWait
    rw [if_neg (by omega), if_neg (h idx)]
    exact ih (idx + 1) count acc hc

/-- When every read comes back with more than 2 characters, each
iteration either exits or increments `self.count`, so the loop exits
within 101 iterations. -/
theorem resyncWait_long_reads_terminate (cmd : String) (replies : Nat → String)
    (h : ∀ i, (replies i).length > 2) :
    ∀ fuel idx count acc, 101 ≤ count + fuel → count ≤ 100 →
      ∃ res, resyncWait cmd replies fuel idx count acc = some res := by
  intro fuel
  induction fuel with
  | zero => intro idx count acc h1 h2; omega
  | succ n ih =>
    intro idx count acc h1 h2
    unfold resyncWait
    by_cases hc : count ≥ 100
    · rw [if_pos hc]
      exact ⟨_, rfl⟩
    · rw [if_neg hc, if_pos (h idx)]
      by_cases hm : strSlice (replies idx) 1 4 = cmd
      · rw [if_pos hm]
        exact ⟨_, rfl⟩
      · rw [if_neg hm]
        exact ih (idx + 1) (count + 1) (acc ++ [replies idx]) (by omega) (by omega)

/-- C2 (counterexample): with a transport that keeps yielding empty
reads, the per-opcode wait loop of the resync routine is still running
after 500 reads — more than the claimed cap of 100 — because
`self.count` is incremented only when a read yields more than 2
characters. -/
theorem c2_resync_empty_reads_loop :
    resyncWait "CCM" (fun _ => "") 500 0 0 [] = none ∧ 100 < 500 := by
  refine ⟨?_, by omega⟩
  exact resyncWait_short_reads_none "CCM" (fun _ => "")
    (fun i => by show ¬ ("" : String).length > 2; decide) 500 0 0 [] (by omega)

/-- C2 (amended): the resync wait for one opcode dispatches at most 100
non-matching frames and, whenever every read yields a line longer than
2 characters, exits within 101 iterations; but a transport that keeps
yielding empty (or ≤ 2 character) reads never increments the counter,
and the loop then spins without bound instead of moving to the next
opcode. -/
theorem c2_amended_resync_bound (cmd : String) (replies : Nat → String) :
    ((∀ i, (replies i).length > 2) →
      ∃ res, resyncWait cmd replies 101 0 0 [] = some res) ∧
    ((∀ i, (replies i).length ≤ 2) →
      ∀ fuel, resyncWait cmd replies fuel 0 0 [] = none) := by
  constructor
  · intro hlong
    exact resyncWait_long_reads_terminate cmd replies hlong 101 0 0 [] (by omega) (by omega)
  · intro hshort fuel
    exact resyncWait_short_reads_none cmd replies (fun i => by
      have := hshort i
      omega) fuel 0 0 [] (by omega)

/-- C2 (witness for the amended theorem): a transport that always
replies `{CCM} N` lets the wait for `CCM` exit within 101 iterations. -/
theorem c2_amended_resync_bound_witness :
    ∃ res, resyncWait "CCM" (fun _ => "{CCM} N") 101 0 0 [] = some res :=
  (c2_amended_resync_bound "CCM" (fun _ => "{CCM} N")).1 (fun i => by decide)

/-- Dispatch log of the resync wait loop: however the loop exits, the
messages handed to `handleMessage` are exactly the reads longer than 2
characters, in order; and when an opcode match ended the wait, the last
read is the matching frame. -/
theorem resyncWait_dispatch_log (cmd : String) (replies : Nat → String) :
    ∀ fuel idx count acc acc2 idx2 m,
      resyncWait cmd replies fuel idx count acc = some (acc2, idx2, m) →
      idx ≤ idx2 ∧
      acc2 = acc ++ (((List.range' idx (idx2 - idx)).map replies).filter
                       (fun s => s.length > 2)) ∧
      (m = true → idx < idx2 ∧ strSlice (replies (idx2 - 1)) 1 4 = cmd) := by
  intro fuel
  induction fuel with
  | zero =>
    intro idx count acc acc2 idx2 m h
    exact absurd h (by simp [resyncWait])
  | succ n ih =>
    intro idx count acc acc2 idx2 m h
    unfold resyncWait at h
    by_cases hc : count ≥ 100
    · rw [if_pos hc] at h
      simp only [Option.some.injEq, Prod.mk.injEq] at h
      obtain ⟨h1, h2, h3⟩ := h
      subst h1 h2
      refine ⟨by omega, by simp, ?_⟩
      intro hm
      rw [← h3] at hm
      simp at hm
    · rw [if_neg hc] at h
      by_cases hlen : (replies idx).length > 2
      · rw [if_pos hlen] at h
        by_cases hmat : strSlice (replies idx) 1 4 = cmd
        · rw [if_pos hmat] at h
          simp only [Option.some.injEq, Prod.mk.injEq] at h
          obtain ⟨h1, h2, h3⟩ := h
          subst h1 h2
          refine ⟨by omega, ?_, ?_⟩
          · have : idx + 1 - idx = 1 := by omega
            rw [this]
            simp [List.range'_one, hlen]
          · intro _
            refine ⟨by omega, ?_⟩
            have : idx + 1 - 1 = idx := by omega
            rw [this]
            exact hmat
        · rw [if_neg hmat] at h
          obtain ⟨ha, hb, hm⟩ := ih (idx + 1) (count + 1) (acc ++ [replies idx]) acc2 idx2 m h
          refine ⟨by omega, ?_, ?_⟩
          · have hspan : idx2 - idx = (idx2 - (idx + 1)) + 1 := by omega
            rw [hb, hspan, List.range'_succ]
            simp [hlen]
          · intro hmt
            obtain ⟨h4, h5⟩ := hm hmt
            exact ⟨by omega, h5⟩
      · rw [if_neg hlen] at h
        obtain ⟨ha, hb, hm⟩ := ih (idx + 1) count acc acc2 idx2 m h
        refine ⟨by omega, ?_, ?_⟩
        · have hspan : idx2 - idx = (idx2 - (idx + 1)) + 1 := by omega
          rw [hb, hspan, List.range'_succ]
          simp [hlen]
        · intro hmt
          obtain ⟨h4, h5⟩ := hm hmt
          exact ⟨by omega, h5⟩

/-- C9: during the resync wait every read longer than 2 characters —
matching or not, solicited or not — is dispatched through
`handleMessage`, in read order, and the wait ends on a match exactly
when the last dispatched read carries the queried opcode at `msg[1:4]`;
in particular an interleaved unsolicited frame is dispatched and the
queried reply is still recognized afterwards. -/
theorem c9_resync_interleaving (cmd : String) (replies : Nat → String)
    (fuel : Nat) (acc : List String) (idx : Nat) (m : Bool)
    (h : resyncWait cmd replies fuel 0 0 [] = some (acc, idx, m)) :
    acc = ((List.range idx).map replies).filter (fun s => s.length > 2) ∧
    (m = true → 1 ≤ idx ∧ strSlice (replies (idx - 1)) 1 4 = cmd) := by
  obtain ⟨h1, h2, h3⟩ := resyncWait_dispatch_log cmd replies fuel 0 0 [] acc idx m h
  constructor
  · rw [h2, List.range_eq_range']
    simp
  · intro hm
    obtain ⟨h4, h5⟩ := h3 hm
    exact ⟨by omega, h5⟩

/-- C9 (witness): querying `AAA` while the transport first delivers an
unsolicited `{CCC} 1` and then the reply `{AAA} 1`: both frames appear
in the dispatch log and the `AAA` frame ends the wait after 2 reads. -/
theorem c9_resync_interleaving_witness :
    (["{CCC} 1", "{AAA} 1"] : List String) =
      ((List.range 2).map (fun i => if i = 0 then "{CCC} 1" else "{AAA} 1")).filter
        (fun s => s.length > 2) ∧
    (true = true → 1 ≤ 2 ∧
      strSlice ((fun i : Nat => if i = 0 then "{CCC} 1" else "{AAA} 1") (2 - 1)) 1 4 = "AAA") :=
  c9_resync_interleaving "AAA" (fun i => if i = 0 then "{CCC} 1" else "{AAA} 1") 101
    ["{CCC} 1", "{AAA} 1"] 2 true (by decide)

/-- C4 (code bug): two command-table handlers raise on the empty
payload instead of issuing the corrective `G` query.  `handleCCM`'s
empty-payload guard calls the undefined name `sendport` (a `NameError`;
its own else-branch spells the intended `self.model.sendPort`), and
`handleOSM` indexes `data[0]` without a guard (an `IndexError`), so the
frames `{CCM}` and `{OSM}` crash the dispatch. -/
theorem c4_handlers_raise_on_empty_payload :
    handleCCM ctrl0 "" = .error (.nameError "sendport") ∧
    handleOSM ctrl0 "" = .error .indexError ∧
    handleMessage ctrl0 "{CCM}" = .error (.nameError "sendport") ∧
    handleMessage ctrl0 "{OSM}" = .error .indexError ∧
    handleFLP ctrl0 "LPX" = .error (.nameError "band") := by
  exact ⟨rfl, rfl, rfl, rfl, rfl⟩

/-- Dispatch of a message whose opcode is not in the command table:
no handler runs, the state is returned unchanged, and the only output
beyond the frame-liveness notification is the diagnostic. -/
theorem handleMessage_unknown (st : CtrlState) (msg : String)
    (hlen : ¬ msg.length < 5) (hun : lookupHandler (strSlice msg 1 4) = none) :
    handleMessage st msg =
      .ok (st, (if strGetD msg 0 ' ' = '{' ∧ strGetD msg 4 ' ' = '}' then
                  [Effect.view "serialOK" "True"] else [])
        ++ [.diag ("response: " ++ msg ++ " is unknown.  Need to upgrade?\n")]) := by
  unfold handleMessage
  rw [if_neg hlen]
  simp only [hun]

/-- C8: dispatching a decoded frame whose 3-letter opcode is absent
from the command table returns normally with the session state
unchanged, invokes no handler, and emits only the unsupported-opcode
diagnostic (plus the frame-liveness notification that fires for every
well-formed frame regardless of opcode); consequently any sequence of
unknown-opcode messages leaves the session state untouched. -/
theorem c8_unknown_opcode_tolerance (st : CtrlState) (msg : String)
    (hlen : 5 ≤ msg.length) (hun : lookupHandler (strSlice msg 1 4) = none) :
    handleMessage st msg =
      .ok (st, (if strGetD msg 0 ' ' = '{' ∧ strGetD msg 4 ' ' = '}' then
                  [Effect.view "serialOK" "True"] else [])
        ++ [.diag ("response: " ++ msg ++ " is unknown.  Need to upgrade?\n")]) ∧
    (∀ msgs : List String,
      (∀ m ∈ msgs, 5 ≤ m.length ∧ lookupHandler (strSlice m 1 4) = none) →
      runMsgs st msgs = .ok st) := by
  constructor
  · exact handleMessage_unknown st msg (by omega) hun
  · intro msgs hall
    induction msgs with
    | nil => rfl
    | cons m rest ih =>
      have hm := hall m (by simp)
      unfold runMsgs
      rw [handleMessage_unknown st m (by omega) hm.2]
      exact ih (fun x hx => hall x (by simp [hx]))

/-- C8 (witness): the frame `{ZZZ} x` — opcode `ZZZ` absent from the
table — is tolerated. -/
theorem c8_unknown_opcode_tolerance_witness :
    handleMessage ctrl0 "{ZZZ} x" =
      .ok (ctrl0, (if strGetD "{ZZZ} x" 0 ' ' = '{' ∧ strGetD "{ZZZ} x" 4 ' ' = '}' then
                  [Effect.view "serialOK" "True"] else [])
        ++ [.diag ("response: " ++ "{ZZZ} x" ++ " is unknown.  Need to upgrade?\n")]) ∧
    (∀ msgs : List String,
      (∀ m ∈ msgs, 5 ≤ m.length ∧ lookupHandler (strSlice m 1 4) = none) →
      runMsgs ctrl0 msgs = .ok ctrl0) :=
  c8_unknown_opcode_tolerance ctrl0 "{ZZZ} x" (by decide) (by rfl)

/-- C10 (code bug): pressing Send in the debug pane forwards the
entered text to `self.model.sendPortRaw`, but class `Model` defines no
such method — the call raises `AttributeError` for every entered
string, with or without the CRLF option — even though the raw
passthrough branch of `Model.sendPort` (empty opcode, no framing, no
appended terminator) exists precisely for this path. -/
theorem c10_sendPressed_attribute_error :
    sendPressed "TEST" false = .error (.attributeError "sendPortRaw") ∧
    sendPressed "TEST" true = .error (.attributeError "sendPortRaw") ∧
    sendPortEncode "" "TEST\r\n" = "TEST\r\n" ∧
    sendPortEncode "CCM" "G" = "[CCM] G\r\n" := by
  exact ⟨rfl, rfl, rfl, rfl⟩

end WSPR
